import Mathlib

/-!
Verification of the SECC protocol engine of the SwitchEV/iso15118 repository.

The definitions below are a shallow embedding of the Python sources:
  * `iso15118/secc/states/iso15118_2_states.py`  (the ISO 15118-2 SECC states)
  * `iso15118/secc/failed_responses.py`          (the failed-response registries)

Conventions of the embedding:
  * 8-byte session ids travel as hex strings, exactly as in the source
    (`get_random_bytes(8).hex().upper()`, `bytes(1).hex()`).
  * Python `Optional` fields become `Option`; Python truthiness of an
    optional integer (`None` and `0` are falsy) is made explicit.
  * The EVSE controller is a record of the values its methods return during
    one `process_message` call (the spec requires per-session-consistent
    snapshots).
  * `stop_state_machine` and `create_next_message` live in
    `secc/states/secc_state.py`, which is not part of the sources at hand;
    they are modelled from the spec (see their doc comments).  Both write the
    per-message output slot, the later call overwriting the earlier one.
  * External cryptography (signature verification, key loading) is out of
    scope per the spec; its boolean outcome enters as an explicit argument.
-/

namespace Iso15118Secc

/-- Response codes of ISO 15118-2 (`iso15118_2.body.ResponseCode`), restricted
to the members the embedded states use. -/
inductive ResponseCode where
  | OK
  | OK_NEW_SESSION_ESTABLISHED
  | OK_OLD_SESSION_JOINED
  | FAILED
  | FAILED_SEQUENCE_ERROR
  | FAILED_SERVICE_SELECTION_INVALID
  | FAILED_NO_CHARGE_SERVICE_SELECTED
  | FAILED_PAYMENT_SELECTION_INVALID
  | FAILED_WRONG_ENERGY_TRANSFER_MODE
  | FAILED_TARIFF_SELECTION_INVALID
  | FAILED_CHARGING_PROFILE_INVALID
  | FAILED_METERING_SIGNATURE_NOT_VALID
  | FAILED_SIGNATURE_ERROR
  | FAILED_CERT_CHAIN_ERROR
  | FAILED_CERTIFICATE_EXPIRED
  | FAILED_CERTIFICATE_REVOKED
  deriving DecidableEq, Repr

/-- `shared.messages.enums.AuthEnum`: the `-2` members carry the wire values
`"ExternalPayment"` (EIM_V2) and `"Contract"` (PNC_V2). -/
inductive AuthEnum where
  | EIM
  | PNC
  | EIM_V2
  | PNC_V2
  deriving DecidableEq, Repr

/-- The Python string value of an `AuthEnum` member (`auth_option.value`). -/
def AuthEnum.value : AuthEnum → String
  | .EIM => "eim"
  | .PNC => "pnc"
  | .EIM_V2 => "ExternalPayment"
  | .PNC_V2 => "Contract"

/-- Python `AuthEnum(value)`: the member with the given string value. -/
def AuthEnum.fromValue (v : String) : Option AuthEnum :=
  if v = "eim" then some .EIM
  else if v = "pnc" then some .PNC
  else if v = "ExternalPayment" then some .EIM_V2
  else if v = "Contract" then some .PNC_V2
  else none

/-- `PaymentOption` of a `PaymentServiceSelectionReq` (wire values
`"Contract"` and `"ExternalPayment"`). -/
inductive PaymentOption where
  | Contract
  | ExternalPayment
  deriving DecidableEq, Repr

/-- The Python string value of a `PaymentOption` member. -/
def PaymentOption.value : PaymentOption → String
  | .Contract => "Contract"
  | .ExternalPayment => "ExternalPayment"

/-- `shared.messages.enums.EnergyTransferModeEnum`. -/
inductive EnergyTransferModeEnum where
  | AC_SINGLE_PHASE_CORE
  | AC_THREE_PHASE_CORE
  | DC_CORE
  | DC_EXTENDED
  | DC_COMBO_CORE
  | DC_UNIQUE
  deriving DecidableEq, Repr

/-- `mode.value.startswith("AC")` on the wire values
(`"AC_single_phase_core"`, …). -/
def EnergyTransferModeEnum.value_startswith_AC : EnergyTransferModeEnum → Bool
  | .AC_SINGLE_PHASE_CORE => true
  | .AC_THREE_PHASE_CORE => true
  | _ => false

/-- `EVSEProcessing` enumeration. -/
inductive EVSEProcessing where
  | FINISHED
  | ONGOING
  deriving DecidableEq, Repr

/-- `ChargeProgress` of a `PowerDeliveryReq` (Start, Stop, Renegotiate). -/
inductive ChargeProgress where
  | START
  | STOP
  | RENEGOTIATE
  deriving DecidableEq, Repr

/-- `EVSENotification` member used by the embedded states. -/
inductive EVSENotification where
  | NONE
  | STOP_CHARGING
  | RE_NEGOTIATION
  deriving DecidableEq, Repr

/-- `ServiceCategory` of ISO 15118-2. -/
inductive ServiceCategory where
  | CHARGING
  | CERTIFICATE
  | INTERNET
  | OTHER_CUSTOM
  deriving DecidableEq, Repr

/-- Numeric members of the `ServiceID` int enumeration. -/
def ServiceID.CHARGING : Nat := 1

/-- `ServiceID.CERTIFICATE = 2`. -/
def ServiceID.CERTIFICATE : Nat := 2

/-- `ServiceID.INTERNET = 3`. -/
def ServiceID.INTERNET : Nat := 3

/-- `ACEVSEStatus` (notification_max_delay, evse_notification, rcd). -/
structure ACEVSEStatus where
  notification_max_delay : Nat
  evse_notification : EVSENotification
  rcd : Bool
  deriving DecidableEq, Repr

/-- `DCEVSEStatus`; only the fields the embedded states read or forward are
kept, the remaining XSD fields are never inspected by them. -/
structure DCEVSEStatus where
  notification_max_delay : Nat
  evse_notification : EVSENotification
  deriving DecidableEq, Repr

/-- AC EVSE charge parameters: produced by the EVSE controller and embedded
unchanged into responses, hence opaque to the modelled states. -/
inductive ACEVSEChargeParameter where
  | params
  deriving DecidableEq, Repr

/-- DC EVSE charge parameters, opaque to the modelled states. -/
inductive DCEVSEChargeParameter where
  | params
  deriving DecidableEq, Repr

/-- `SalesTariff`; the states only use its signature-reference `id`. -/
structure SalesTariff where
  id : String
  deriving DecidableEq, Repr

/-- `SAScheduleTuple`: the tuple id and the optional sales tariff (the P-max
schedule is never inspected by the embedded states). -/
structure SAScheduleTuple where
  sa_schedule_tuple_id : Nat
  sales_tariff : Option SalesTariff
  deriving DecidableEq, Repr

/-- `MeterInfo`: the meter id and the optional integer meter reading. -/
structure MeterInfo where
  meter_id : String
  meter_reading : Option Nat
  deriving DecidableEq, Repr

/-- Python truthiness of an optional integer: `None` and `0` are falsy. -/
def optNatTruthy : Option Nat → Bool
  | none => false
  | some n => n ≠ 0

/-- `ServiceDetails` record of a value-added service. -/
structure ServiceDetails where
  service_id : Nat
  service_name : String
  service_category : ServiceCategory
  free_service : Bool
  deriving DecidableEq, Repr

/-- The `ChargeService` record of a `ServiceDiscoveryRes`. -/
structure ChargeService where
  service_id : Nat
  service_name : String
  service_category : ServiceCategory
  free_service : Bool
  supported_energy_transfer_mode : List EnergyTransferModeEnum
  deriving DecidableEq, Repr

/-- The contract certificate chain; opaque to the states modelled here
(only its presence is inspected). -/
structure CertificateChain where
  certificate : String
  deriving DecidableEq, Repr

/-- The SECC configuration fields the embedded states consult. -/
structure Config where
  supported_auth_options : List AuthEnum
  free_charging_service : Bool
  allow_cert_install_service : Bool
  free_cert_install_service : Bool

/-- Snapshot of the EVSE controller answers used during one
`process_message` call (`secc/controller` interface, spec §4.3). -/
structure EVSEController where
  evse_id : String
  supported_energy_transfer_modes : List EnergyTransferModeEnum
  ac_evse_status : ACEVSEStatus
  dc_evse_status : DCEVSEStatus
  ac_evse_charge_parameter : ACEVSEChargeParameter
  dc_evse_charge_parameter : DCEVSEChargeParameter
  is_authorised : Bool
  get_sa_schedule_list : Option Nat → Nat → List SAScheduleTuple

/-- The per-connection mutable `SECCCommunicationSession` fields the
embedded states read or write (spec §3 Session Context). `stop_reason_set`
records that `stop_state_machine` marked the session aborted. -/
structure SessionCtx where
  session_id : String
  evcc_id : String
  is_tls : Bool
  config : Config
  evse_controller : EVSEController
  selected_auth_option : Option AuthEnum
  offered_auth_options : List AuthEnum
  offered_services : List ServiceDetails
  offered_schedules : List SAScheduleTuple
  selected_energy_mode : Option EnergyTransferModeEnum
  selected_schedule : Option Nat
  charge_progress_started : Bool
  contract_cert_chain : Option CertificateChain
  sent_meter_info : Option MeterInfo
  stop_reason_set : Bool := false

/-- The ISO 15118-2 message header; only the session id is inspected by the
embedded states (the signature enters via an explicit verification flag). -/
structure MessageHeaderV2 where
  session_id : String
  deriving DecidableEq, Repr

/-- The state names of the ISO 15118-2 SECC state machine. -/
inductive StateName where
  | sessionSetup
  | serviceDiscovery
  | serviceDetail
  | paymentServiceSelection
  | certificateInstallation
  | paymentDetails
  | authorization
  | chargeParameterDiscovery
  | powerDelivery
  | chargingStatus
  | currentDemand
  | meteringReceipt
  | cableCheck
  | preCharge
  | weldingDetection
  | sessionStop
  deriving DecidableEq, Repr

/-- The successor named by a state: stay (`next_state = None`), go to a named
state, or the distinguished `Terminate`. -/
inductive NextState where
  | stay
  | goto (s : StateName)
  | terminate
  deriving DecidableEq, Repr

/-- ISO 15118-2 request types (used to key the failed-response registry). -/
inductive V2ReqType where
  | sessionSetupReq
  | serviceDiscoveryReq
  | serviceDetailReq
  | paymentServiceSelectionReq
  | certificateInstallationReq
  | paymentDetailsReq
  | authorizationReq
  | chargeParameterDiscoveryReq
  | powerDeliveryReq
  | chargingStatusReq
  | meteringReceiptReq
  | cableCheckReq
  | preChargeReq
  | currentDemandReq
  | weldingDetectionReq
  | sessionStopReq
  deriving DecidableEq, Repr

/-- The response bodies constructed by the embedded states. -/
inductive ResBodyV2 where
  | sessionSetupRes (response_code : ResponseCode) (evse_id : String)
      (evse_timestamp : Nat)
  | serviceDiscoveryRes (response_code : ResponseCode)
      (auth_option_list : List AuthEnum) (charge_service : ChargeService)
      (service_list : Option (List ServiceDetails))
  | paymentServiceSelectionRes (response_code : ResponseCode)
  | chargeParameterDiscoveryRes (response_code : ResponseCode)
      (evse_processing : EVSEProcessing)
      (sa_schedule_list : List SAScheduleTuple)
      (ac_charge_parameter : Option ACEVSEChargeParameter)
      (dc_charge_parameter : Option DCEVSEChargeParameter)
  | powerDeliveryRes (response_code : ResponseCode)
      (ac_evse_status : ACEVSEStatus)
  | meteringReceiptRes (response_code : ResponseCode)
      (ac_evse_status : Option ACEVSEStatus)
      (dc_evse_status : Option DCEVSEStatus)
  deriving DecidableEq, Repr

/-- The message queued in the output slot: either a constructed response body
or the registry's failed response for the inbound type, response code
overridden. -/
inductive Payload where
  | body (b : ResBodyV2)
  | failedFor (t : V2ReqType) (code : ResponseCode)
  deriving DecidableEq, Repr

/-- The per-message output slot filled by `create_next_message` /
`stop_state_machine`: the message to send, the successor, and the optional
header signature. -/
structure Slot where
  message : Payload
  next : NextState
  signature : Option String := none
  deriving DecidableEq, Repr

/-- Modelled from the spec: `StateSECC.stop_state_machine(reason, incoming,
response_code)` (in `secc/states/secc_state.py`, not among the sources at
hand) marks abnormal completion and queues the registry's failed response for
the inbound type with the given response code, naming `Terminate` as
successor (spec §4.4 state contract and §4.4 failure semantics). -/
def stop_state_machine (ctx : SessionCtx) (req_type : V2ReqType)
    (code : ResponseCode) : SessionCtx × Slot :=
  ({ ctx with stop_reason_set := true }, ⟨.failedFor req_type code, .terminate, none⟩)

/-- Modelled from the spec: `State.create_next_message(next_state, payload,
timeout, namespace, signature)` (in `shared/states.py`, not among the sources
at hand) fills the output slot with the response and the named successor;
a later call overwrites an earlier one (spec §4.4: the state "mutates …
an output slot"). -/
def create_next_message (ctx : SessionCtx) (next : NextState) (b : ResBodyV2)
    (signature : Option String := none) : SessionCtx × Slot :=
  (ctx, ⟨.body b, next, signature⟩)

/-- The hex string of one zero byte, `bytes(1).hex()`: the literal the source
compares the inbound header's session id against. -/
def one_zero_byte_hex : String := "00"

/-- The upper-hex encoding of the 8-byte all-zero session id
(`bytes(8).hex().upper()`), the "new session" sentinel of the spec. -/
def all_zero_session_id_hex : String := "0000000000000000"

namespace SessionSetup

/-- `SessionSetupReq` body: the EVCC identifier. -/
structure SessionSetupReq where
  evcc_id : String
  deriving DecidableEq, Repr

/-- Embeds `SessionSetup.process_message`
(`iso15118_2_states.py` lines 127-174), after `check_msg_v2` accepted the
message as a `SessionSetupReq`.  `fresh_session_id` stands for the value of
`get_random_bytes(8).hex().upper()` and `now` for `time.time()`. -/
def process_message (ctx : SessionCtx) (fresh_session_id : String) (now : Nat)
    (header : MessageHeaderV2) (req : SessionSetupReq) : SessionCtx × Slot :=
  let session_id := fresh_session_id
  let (session_id, response_code) :=
    if header.session_id = one_zero_byte_hex then
      (session_id, ResponseCode.OK_NEW_SESSION_ESTABLISHED)
    else if header.session_id = ctx.session_id then
      (ctx.session_id, ResponseCode.OK_OLD_SESSION_JOINED)
    else
      (session_id, ResponseCode.OK_NEW_SESSION_ESTABLISHED)
  let session_setup_res :=
    ResBodyV2.sessionSetupRes response_code ctx.evse_controller.evse_id now
  let ctx := { ctx with evcc_id := req.evcc_id, session_id := session_id }
  create_next_message ctx (.goto .serviceDiscovery) session_setup_res

end SessionSetup

namespace ServiceDiscovery

/-- Embeds `ServiceDiscovery.get_services`
(`iso15118_2_states.py` lines 241-314): builds the `ServiceDiscoveryRes` and
records the offered auth options and value-added services in the session. -/
def get_services (ctx : SessionCtx) (category_filter : Option ServiceCategory) :
    SessionCtx × ResBodyV2 :=
  let auth_options : List AuthEnum :=
    match ctx.selected_auth_option with
    | some sel =>
        if sel = AuthEnum.EIM_V2 then [AuthEnum.EIM_V2] else [AuthEnum.PNC_V2]
    | none =>
        (if ctx.config.supported_auth_options.contains AuthEnum.EIM then
          [AuthEnum.EIM_V2] else []) ++
        (if ctx.config.supported_auth_options.contains AuthEnum.PNC &&
            ctx.is_tls then [AuthEnum.PNC_V2] else [])
  let ctx := { ctx with offered_auth_options := auth_options }
  let energy_modes := ctx.evse_controller.supported_energy_transfer_modes
  let charge_service : ChargeService :=
    { service_id := ServiceID.CHARGING
      service_name := "AC_DC_Charging"
      service_category := .CHARGING
      free_service := ctx.config.free_charging_service
      supported_energy_transfer_mode := energy_modes }
  let service_list : List ServiceDetails :=
    if ctx.is_tls &&
        (ctx.config.allow_cert_install_service &&
          (category_filter = none || category_filter = some .CERTIFICATE)) then
      [{ service_id := 2
         service_name := "Certificate"
         service_category := .CERTIFICATE
         free_service := ctx.config.free_cert_install_service }]
    else []
  let offered_services : Option (List ServiceDetails) :=
    if service_list.length > 0 then some service_list else none
  let service_discovery_res :=
    ResBodyV2.serviceDiscoveryRes .OK auth_options charge_service
      offered_services
  let ctx := { ctx with offered_services := service_list }
  (ctx, service_discovery_res)

end ServiceDiscovery

namespace PaymentServiceSelection

/-- A `SelectedService` entry of a `PaymentServiceSelectionReq`. -/
structure SelectedService where
  service_id : Nat
  parameter_set_id : Option Nat
  deriving DecidableEq, Repr

/-- `PaymentServiceSelectionReq` body. -/
structure PaymentServiceSelectionReq where
  selected_auth_option : PaymentOption
  selected_service_list : List SelectedService
  deriving DecidableEq, Repr

/-- The `for service in selected_service_list.selected_service` loop of
`PaymentServiceSelection.process_message` (lines 468-483): walks the selected
services in order, records whether the Charge service was selected, and stops
at the first other service whose id was not offered. -/
def check_selected_services (offered_ids : List Nat) :
    List SelectedService → Bool → Except Nat Bool
  | [], charge_service_selected => .ok charge_service_selected
  | s :: rest, charge_service_selected =>
      if s.service_id = ServiceID.CHARGING then
        check_selected_services offered_ids rest true
      else if offered_ids.contains s.service_id then
        check_selected_services offered_ids rest charge_service_selected
      else
        .error s.service_id

/-- Embeds the `PaymentServiceSelectionReq` branch of
`PaymentServiceSelection.process_message` (lines 463-528). -/
def process_payment_service_selection_req (ctx : SessionCtx)
    (req : PaymentServiceSelectionReq) : SessionCtx × Slot :=
  match check_selected_services (ctx.offered_services.map (·.service_id))
      req.selected_service_list false with
  | .error _bad_service_id =>
      stop_state_machine ctx .paymentServiceSelectionReq
        .FAILED_SERVICE_SELECTION_INVALID
  | .ok charge_service_selected =>
      if ¬ charge_service_selected then
        stop_state_machine ctx .paymentServiceSelectionReq
          .FAILED_NO_CHARGE_SERVICE_SELECTED
      else if ¬ (ctx.offered_auth_options.map AuthEnum.value).contains
          req.selected_auth_option.value then
        stop_state_machine ctx .paymentServiceSelectionReq
          .FAILED_PAYMENT_SELECTION_INVALID
      else
        let ctx := { ctx with
          selected_auth_option := AuthEnum.fromValue
            req.selected_auth_option.value }
        create_next_message ctx .stay (.paymentServiceSelectionRes .OK)

end PaymentServiceSelection

namespace ChargeParameterDiscovery

/-- `ACEVChargeParameter`: only the departure time is read by the state. -/
structure ACEVChargeParameter where
  departure_time : Option Nat
  deriving DecidableEq, Repr

/-- `DCEVChargeParameter`: only the departure time is read by the state. -/
structure DCEVChargeParameter where
  departure_time : Option Nat
  deriving DecidableEq, Repr

/-- Modelled from the spec: the XSD choice (enforced by a pydantic validator
in `iso15118_2/body.py`, not among the sources at hand) makes exactly one of
`ac_ev_charge_parameter` / `dc_ev_charge_parameter` present. -/
inductive EVChargeParameters where
  | ac (p : ACEVChargeParameter)
  | dc (p : DCEVChargeParameter)
  deriving DecidableEq, Repr

/-- `ChargeParameterDiscoveryReq` body. -/
structure ChargeParameterDiscoveryReq where
  requested_energy_mode : EnergyTransferModeEnum
  max_entries_sa_schedule_tuple : Option Nat
  ev_charge_parameter : EVChargeParameters
  deriving DecidableEq, Repr

/-- Embeds the `ChargeParameterDiscoveryReq` branch of
`ChargeParameterDiscovery.process_message` (lines 902-1018).
`mo_sub_ca2_key_readable` is the outcome of
`load_priv_key(KeyPath.MO_SUB_CA2_PEM, …)` (false = `PrivateKeyReadError`,
which the source logs and swallows, sending the schedule unsigned). -/
def process_charge_parameter_discovery_req (ctx : SessionCtx)
    (mo_sub_ca2_key_readable : Bool) (req : ChargeParameterDiscoveryReq) :
    SessionCtx × Slot :=
  if ¬ ctx.evse_controller.supported_energy_transfer_modes.contains
      req.requested_energy_mode then
    stop_state_machine ctx .chargeParameterDiscoveryReq
      .FAILED_WRONG_ENERGY_TRANSFER_MODE
  else
    let ctx := { ctx with selected_energy_mode := some req.requested_energy_mode }
    let max_schedule_entries := req.max_entries_sa_schedule_tuple
    let (ac_evse_charge_params, dc_evse_charge_params, departure_time) :=
      match req.ev_charge_parameter with
      | .ac p => (some ctx.evse_controller.ac_evse_charge_parameter,
          (none : Option DCEVSEChargeParameter), p.departure_time)
      | .dc p => ((none : Option ACEVSEChargeParameter),
          some ctx.evse_controller.dc_evse_charge_parameter, p.departure_time)
    -- `if not departure_time: departure_time = 0` (None and 0 are falsy)
    let departure_time := departure_time.getD 0
    let sa_schedule_list :=
      ctx.evse_controller.get_sa_schedule_list max_schedule_entries
        departure_time
    let charge_params_res :=
      ResBodyV2.chargeParameterDiscoveryRes .OK
        (if sa_schedule_list.isEmpty then .ONGOING else .FINISHED)
        sa_schedule_list ac_evse_charge_params dc_evse_charge_params
  -- `for schedule in sa_schedule_list: … break` examines only the first
  -- schedule (the break sits at loop level, after the `if sales_tariff`)
    if sa_schedule_list.isEmpty then
      create_next_message ctx .stay charge_params_res
    else
      let ctx := { ctx with offered_schedules := sa_schedule_list }
      let signature : Option String :=
        match sa_schedule_list.head? with
        | some schedule =>
            match schedule.sales_tariff with
            | some tariff =>
                if mo_sub_ca2_key_readable then some tariff.id else none
            | none => none
        | none => none
      create_next_message ctx (.goto .powerDelivery) charge_params_res
        signature

end ChargeParameterDiscovery

namespace PowerDelivery

/-- `ChargingProfile`: carried along, never inspected by the state. -/
structure ChargingProfile where
  profile_entries : List Nat
  deriving DecidableEq, Repr

/-- `PowerDeliveryReq` body. -/
structure PowerDeliveryReq where
  charge_progress : ChargeProgress
  sa_schedule_tuple_id : Nat
  charging_profile : Option ChargingProfile
  deriving DecidableEq, Repr

/-- Embeds the `PowerDeliveryReq` branch of
`PowerDelivery.process_message` (lines 1086-1158).  Note that in the
`RENEGOTIATE`-without-started branch the source calls `stop_state_machine`
WITHOUT returning: execution falls through, `next_state` is set to
`Terminate`, and the subsequent `create_next_message` overwrites the queued
failed response with an `OK` `PowerDeliveryRes`. -/
def process_power_delivery_req (ctx : SessionCtx) (req : PowerDeliveryReq) :
    SessionCtx × Slot :=
  if ¬ (ctx.offered_schedules.map (·.sa_schedule_tuple_id)).contains
      req.sa_schedule_tuple_id then
    stop_state_machine ctx .powerDeliveryReq .FAILED_TARIFF_SELECTION_INVALID
  else if req.charge_progress = .START ∧ req.charging_profile = none then
    stop_state_machine ctx .powerDeliveryReq .FAILED_CHARGING_PROFILE_INVALID
  else
    let (ctx, next_state) :=
      match req.charge_progress with
      | .START =>
          ({ ctx with
              selected_schedule := some req.sa_schedule_tuple_id
              charge_progress_started := true },
            NextState.goto .chargingStatus)
      | .STOP => (ctx, NextState.goto .sessionStop)
      | .RENEGOTIATE =>
          if ctx.charge_progress_started then
            (ctx, NextState.goto .chargeParameterDiscovery)
          else
            let (ctx, _queued) :=
              stop_state_machine ctx .powerDeliveryReq .FAILED
            (ctx, NextState.terminate)
    let power_delivery_res :=
      ResBodyV2.powerDeliveryRes .OK ctx.evse_controller.ac_evse_status
    create_next_message ctx next_state power_delivery_res

end PowerDelivery

namespace MeteringReceipt

/-- `MeteringReceiptReq` body: the signature-reference id and the echoed
meter info (the unread `session_id`/`sa_schedule_tuple_id` fields are
omitted). -/
structure MeteringReceiptReq where
  id : Option String
  meter_info : MeterInfo
  deriving DecidableEq, Repr

/-- Embeds the `MeteringReceiptReq` branch of
`MeteringReceipt.process_message` (lines 1216-1274).  `signature_valid` is
the outcome of `verify_signature` over the request (external cryptography).
The meter check transcribes
`not req.meter_info.meter_reading or (sent_meter_info and
sent_meter_info.meter_reading and req.meter_info.meter_reading !=
sent_meter_info.meter_reading)` with Python truthiness made explicit. -/
def process_metering_receipt_req (ctx : SessionCtx) (signature_valid : Bool)
    (req : MeteringReceiptReq) : SessionCtx × Slot :=
  let stop_reason : Option String :=
    if ctx.contract_cert_chain = none then
      some "No contract certificate chain available to verify signature of MeteringReceiptReq"
    else if ¬ signature_valid then
      some "Unable to verify signature of MeteringReceiptReq"
    else if !optNatTruthy req.meter_info.meter_reading ||
        (match ctx.sent_meter_info with
          | none => false
          | some smi => optNatTruthy smi.meter_reading &&
              req.meter_info.meter_reading != smi.meter_reading) then
      some "EVCC's meter info is not a copy of the SECC's meter info sent in CharginStatusRes/CurrentDemandRes"
    else
      none
  match stop_reason with
  | some _ =>
      stop_state_machine ctx .meteringReceiptReq
        .FAILED_METERING_SIGNATURE_NOT_VALID
  | none =>
      let metering_receipt_res :=
        if (match ctx.selected_energy_mode with
            | some mode => mode.value_startswith_AC
            | none => false) then
          ResBodyV2.meteringReceiptRes .OK
            (some ctx.evse_controller.ac_evse_status) none
        else
          ResBodyV2.meteringReceiptRes .OK none
            (some ctx.evse_controller.dc_evse_status)
      create_next_message ctx .stay metering_receipt_res

end MeteringReceipt

/-- Python exception values surfaced by the embedded code. -/
inductive PyError where
  | notImplementedError (msg : String)
  | nameError (name : String)
  deriving DecidableEq, Repr

namespace CableCheck

/-- `CableCheck.process_message` (lines 1286-1295): raises
`NotImplementedError` for every inbound message. -/
def process_message (_message : V2ReqType) : Except PyError Slot :=
  .error (.notImplementedError "CableCheck not yet implemented")

end CableCheck

namespace PreCharge

/-- `PreCharge.process_message` (lines 1307-1316): raises
`NotImplementedError` for every inbound message. -/
def process_message (_message : V2ReqType) : Except PyError Slot :=
  .error (.notImplementedError "PreCharge not yet implemented")

end PreCharge

namespace CurrentDemand

/-- `CurrentDemand.process_message` (lines 1429-1438): raises
`NotImplementedError` for every inbound message. -/
def process_message (_message : V2ReqType) : Except PyError Slot :=
  .error (.notImplementedError "CurrentDemand not yet implemented")

end CurrentDemand

namespace WeldingDetection

/-- `WeldingDetection.process_message` (lines 1450-1459): raises
`NotImplementedError` for every inbound message. -/
def process_message (_message : V2ReqType) : Except PyError Slot :=
  .error (.notImplementedError "WeldingDetection not yet implemented")

end WeldingDetection

namespace FailedResponses

/-- DIN SPEC 70121 response code member used by the registry. -/
inductive ResponseCodeDIN where
  | FAILED
  deriving DecidableEq, Repr

/-- ISO 15118-20 response code member used by the registry. -/
inductive ResponseCodeV20 where
  | FAILED
  deriving DecidableEq, Repr

/-- The `Namespace` members used by the ISO 15118-20 registry. -/
inductive NamespaceV20 where
  | ISO_V20_COMMON_MSG
  | ISO_V20_AC
  | ISO_V20_DC
  deriving DecidableEq, Repr

/-- The `ISOV20PayloadTypes` members used by the ISO 15118-20 registry. -/
inductive ISOV20PayloadTypes where
  | MAINSTREAM
  | AC_MAINSTREAM
  | DC_MAINSTREAM
  deriving DecidableEq, Repr

/-- The names bound at module level of `secc/failed_responses.py` by its
`from … import …` statements (aliases as written; lines 1-204). -/
def imported_names : List String :=
  ["DCEVSEChargeParameter", "DCEVSEStatus", "DCEVSEStatusCode",
   "EVSENotification", "PVEVSECurrentRegulationTolerance",
   "PVEVSEEnergyToBeDelivered", "PVEVSEMaxCurrentLimit",
   "PVEVSEMaxPowerLimit", "PVEVSEMaxVoltageLimit", "PVEVSEMinCurrentLimit",
   "PVEVSEMinVoltageLimit", "PVEVSEPeakCurrentRipple",
   "PVEVSEPresentCurrent", "PVEVSEPresentVoltage",
   "CableCheckReqDINSPEC", "CableCheckResDINSPEC",
   "ChargeParameterDiscoveryReqDINSPEC", "ChargeParameterDiscoveryResDINSPEC",
   "ContractAuthenticationReqDINSPEC", "ContractAuthenticationResDINSPEC",
   "CurrentDemandReqDINPEC", "CurrentDemandResDINSPEC",
   "PowerDeliveryReqDINSPEC", "PowerDeliveryResDINSPEC",
   "PreChargeReqDINSPEC", "PreChargeResDINSPEC",
   "ServiceDiscoveryReqDINSPEC", "ServiceDiscoveryResDINSPEC",
   "ServicePaymentSelectionReqDINSPEC", "ServicePaymentSelectionResDINSPEC",
   "SessionSetupReqDINSPEC", "SessionSetupResDINSPEC",
   "SessionStopReqDINSPEC", "SessionStopResDINSPEC",
   "WeldingDetectionReqDINSPEC", "WeldingDetectionResDINSPEC",
   "AuthOptionListDINSPEC", "ChargeServiceDINSPEC", "DCEVSEStatusCodeDINSPEC",
   "EVSENotificationDINSPEC", "ResponseCodeDINSPEC", "ServiceCategoryDINSPEC",
   "ServiceDetailsDINSPEC", "ServiceIDDINSPEC",
   "AuthEnum", "EnergyTransferModeEnum", "EVSEProcessing", "IsolationLevel",
   "Namespace", "UnitSymbol", "ISOV20PayloadTypes",
   "EMAID", "AuthorizationReqV2", "AuthorizationResV2",
   "CableCheckReq", "CableCheckRes",
   "CertificateInstallationReqV2", "CertificateInstallationResV2",
   "CertificateUpdateReq", "CertificateUpdateRes",
   "ChargeParameterDiscoveryReq", "ChargeParameterDiscoveryRes",
   "ChargingStatusReq", "ChargingStatusRes",
   "CurrentDemandReq", "CurrentDemandRes",
   "MeteringReceiptReq", "MeteringReceiptRes",
   "PaymentDetailsReq", "PaymentDetailsRes",
   "PaymentServiceSelectionReq", "PaymentServiceSelectionRes",
   "PowerDeliveryReqV2", "PowerDeliveryResV2",
   "PreChargeReq", "PreChargeRes",
   "ServiceDetailReqV2", "ServiceDetailResV2",
   "ServiceDiscoveryReqV2", "ServiceDiscoveryResV2",
   "SessionSetupReqV2", "SessionSetupResV2",
   "SessionStopReqV2", "SessionStopResV2",
   "WeldingDetectionReqV2", "WeldingDetectionResV2",
   "ACEVSEStatus", "CertificateChainV2", "ChargeService", "DHPublicKey",
   "EncryptedPrivateKey", "EnergyTransferModeList",
   "ACChargeLoopReq", "ACChargeLoopRes",
   "ACChargeParameterDiscoveryReq", "ACChargeParameterDiscoveryRes",
   "ACChargeParameterDiscoveryResParams", "ScheduledACChargeLoopResParams",
   "AuthorizationReqV20", "AuthorizationResV20",
   "SubCertificates", "ServiceList",
   "AuthorizationSetupReq", "AuthorizationSetupRes",
   "CertificateChainV20",
   "CertificateInstallationReqV20", "CertificateInstallationResV20",
   "DynamicScheduleExchangeResParams", "ECDHCurve", "EIMAuthSetupResParams",
   "MeteringConfirmationReq", "MeteringConfirmationRes",
   "PowerDeliveryReqV20", "PowerDeliveryResV20",
   "PriceLevelSchedule", "PriceLevelScheduleEntryList",
   "ScheduleExchangeReq", "ScheduleExchangeRes",
   "Service", "ServiceDetailReqV20", "ServiceDetailResV20",
   "ServiceDiscoveryReqV20", "ServiceDiscoveryResV20",
   "ServiceParameterList", "ServiceSelectionReq", "ServiceSelectionRes",
   "SessionSetupReqV20", "SessionSetupResV20",
   "SessionStopReqV20", "SessionStopResV20",
   "SignedInstallationData",
   "MessageHeaderV20", "Processing", "RationalNumber", "ResponseCodeV20",
   "DCChargeParameterDiscoveryReq", "DCChargeParameterDiscoveryRes",
   "DCChargeParameterDiscoveryResParams"]

/-- Python resolves each global name of a function body at call time; the
first name that is neither local nor module-level nor a builtin raises
`NameError`.  `referenced` lists a body's global-name reads in evaluation
order (builtins and locals excluded). -/
def resolve_globals (referenced : List String) : Except PyError Unit :=
  match referenced.find? (fun n => ¬ imported_names.contains n) with
  | some n => .error (.nameError n)
  | none => .ok ()

/-- The global names read by `init_failed_responses_din_spec_70121`
(lines 206-348), in evaluation order. -/
def din_spec_referenced : List String :=
  ["SessionSetupReqDINSPEC", "SessionSetupResDINSPEC", "ResponseCodeDINSPEC",
   "ServiceDiscoveryReqDINSPEC", "ServiceDiscoveryResDINSPEC",
   "AuthOptionListDINSPEC", "AuthEnum", "ChargeServiceDINSPEC",
   "ServiceDetailsDINSPEC", "ServiceIDDINSPEC", "ServiceCategoryDINSPEC",
   "EnergyTransferModeEnum", "ServicePaymentSelectionReqDINSPEC",
   "ServicePaymentSelectionResDINSPEC", "ContractAuthenticationReqDINSPEC",
   "ContractAuthenticationResDINSPEC", "EVSEProcessing",
   "ChargeParameterDiscoveryReqDINSPEC", "ChargeParameterDiscoveryResDINSPEC",
   "DCEVSEChargeParameter", "DCEVSEStatus", "EVSENotificationDINSPEC",
   "IsolationLevel", "DCEVSEStatusCodeDINSPEC", "PVEVSEMaxPowerLimit",
   "UnitSymbol", "PVEVSEMaxCurrentLimit", "PVEVSEMaxVoltageLimit",
   "PVEVSEMinCurrentLimit", "PVEVSEMinVoltageLimit",
   "PVEVSECurrentRegulationTolerance", "PVEVSEPeakCurrentRipple",
   "PVEVSEEnergyToBeDelivered", "CableCheckReqDINSPEC",
   "CableCheckResDINSPEC", "PreChargeReqDINSPEC", "PreChargeResDINSPEC",
   "PVEVSEPresentVoltage", "PowerDeliveryReqDINSPEC",
   "PowerDeliveryResDINSPEC", "CurrentDemandReqDINPEC",
   "CurrentDemandResDINSPEC", "PVEVSEPresentCurrent",
   "WeldingDetectionReqDINSPEC", "WeldingDetectionResDINSPEC",
   "SessionStopReqDINSPEC", "SessionStopResDINSPEC"]

/-- The global names read by `init_failed_responses_iso_v2`
(lines 351-483), in evaluation order.  `ResponseCodeV2`, `AuthOptionList`,
`ServiceID` and `ServiceCategory` appear here although the module never
imports them. -/
def iso_v2_referenced : List String :=
  ["SessionSetupReqV2", "SessionSetupResV2", "ResponseCodeV2",
   "ServiceDiscoveryReqV2", "ServiceDiscoveryResV2", "AuthOptionList",
   "AuthEnum", "ChargeService", "ServiceID", "ServiceCategory",
   "EnergyTransferModeList", "EnergyTransferModeEnum", "ServiceDetailReqV2",
   "ServiceDetailResV2", "PaymentServiceSelectionReq",
   "PaymentServiceSelectionRes", "CertificateInstallationReqV2",
   "CertificateInstallationResV2", "CertificateChainV2",
   "EncryptedPrivateKey", "DHPublicKey", "EMAID", "CertificateUpdateReq",
   "CertificateUpdateRes", "PaymentDetailsReq", "PaymentDetailsRes",
   "AuthorizationReqV2", "AuthorizationResV2", "EVSEProcessing",
   "ChargeParameterDiscoveryReq", "ChargeParameterDiscoveryRes",
   "PowerDeliveryReqV2", "PowerDeliveryResV2", "ChargingStatusReq",
   "ChargingStatusRes", "ACEVSEStatus", "EVSENotification", "CableCheckReq",
   "CableCheckRes", "DCEVSEStatus", "IsolationLevel", "DCEVSEStatusCode",
   "PreChargeReq", "PreChargeRes", "PVEVSEPresentVoltage",
   "CurrentDemandReq", "CurrentDemandRes", "PVEVSEPresentCurrent",
   "MeteringReceiptReq", "MeteringReceiptRes", "WeldingDetectionReqV2",
   "WeldingDetectionResV2", "SessionStopReqV2", "SessionStopResV2"]

/-- The global names read by `init_failed_responses_iso_v20`
(lines 486-689), in evaluation order. -/
def iso_v20_referenced : List String :=
  ["MessageHeaderV20", "SessionSetupReqV20", "SessionSetupResV20",
   "ResponseCodeV20", "Namespace", "ISOV20PayloadTypes",
   "AuthorizationReqV20", "AuthorizationResV20", "Processing",
   "AuthorizationSetupReq", "AuthorizationSetupRes", "AuthEnum",
   "EIMAuthSetupResParams", "CertificateInstallationReqV20",
   "CertificateInstallationResV20", "CertificateChainV20",
   "SignedInstallationData", "SubCertificates", "ECDHCurve",
   "ServiceDiscoveryReqV20", "ServiceDiscoveryResV20", "ServiceList",
   "Service", "ServiceDetailReqV20", "ServiceDetailResV20",
   "ServiceParameterList", "ServiceSelectionReq", "ServiceSelectionRes",
   "ACChargeParameterDiscoveryReq", "ACChargeParameterDiscoveryRes",
   "ACChargeParameterDiscoveryResParams", "RationalNumber",
   "DCChargeParameterDiscoveryReq", "DCChargeParameterDiscoveryRes",
   "DCChargeParameterDiscoveryResParams", "ScheduleExchangeReq",
   "ScheduleExchangeRes", "DynamicScheduleExchangeResParams",
   "PriceLevelSchedule", "PriceLevelScheduleEntryList",
   "PowerDeliveryReqV20", "PowerDeliveryResV20", "ACChargeLoopReq",
   "ACChargeLoopRes", "ScheduledACChargeLoopResParams",
   "MeteringConfirmationReq", "MeteringConfirmationRes",
   "SessionStopReqV20", "SessionStopResV20"]

/-- Embeds `init_failed_responses_din_spec_70121` (lines 206-348) at the
level the claims need: request type (by name) to preset response code,
after resolving the body's global names. -/
def init_failed_responses_din_spec_70121 :
    Except PyError (List (String × ResponseCodeDIN)) :=
  match resolve_globals din_spec_referenced with
  | .error e => .error e
  | .ok _ => .ok
      [("SessionSetupReq", .FAILED), ("ServiceDiscoveryReq", .FAILED),
       ("ServicePaymentSelectionReq", .FAILED),
       ("ContractAuthenticationReq", .FAILED),
       ("ChargeParameterDiscoveryReq", .FAILED), ("CableCheckReq", .FAILED),
       ("PreChargeReq", .FAILED), ("PowerDeliveryReq", .FAILED),
       ("CurrentDemandReq", .FAILED), ("WeldingDetectionReq", .FAILED),
       ("SessionStopReq", .FAILED)]

/-- Embeds `init_failed_responses_iso_v2` (lines 351-483): the body reads
`ResponseCodeV2` (and `AuthOptionList`, `ServiceID`, `ServiceCategory`)
which the module never imports, so resolution fails before any entry is
built. -/
def init_failed_responses_iso_v2 :
    Except PyError (List (String × ResponseCode)) :=
  match resolve_globals iso_v2_referenced with
  | .error e => .error e
  | .ok _ => .ok
      [("SessionSetupReq", .FAILED), ("ServiceDiscoveryReq", .FAILED),
       ("ServiceDetailReq", .FAILED), ("PaymentServiceSelectionReq", .FAILED),
       ("CertificateInstallationReq", .FAILED),
       ("CertificateUpdateReq", .FAILED), ("PaymentDetailsReq", .FAILED),
       ("AuthorizationReq", .FAILED),
       ("ChargeParameterDiscoveryReq", .FAILED),
       ("PowerDeliveryReq", .FAILED), ("ChargingStatusReq", .FAILED),
       ("CableCheckReq", .FAILED), ("PreChargeReq", .FAILED),
       ("CurrentDemandReq", .FAILED), ("MeteringReceiptReq", .FAILED),
       ("WeldingDetectionReq", .FAILED), ("SessionStopReq", .FAILED)]

/-- Embeds `init_failed_responses_iso_v20` (lines 486-689): request type
(by name) to the triple (preset response code, namespace, payload type). -/
def init_failed_responses_iso_v20 :
    Except PyError
      (List (String × ResponseCodeV20 × NamespaceV20 × ISOV20PayloadTypes)) :=
  match resolve_globals iso_v20_referenced with
  | .error e => .error e
  | .ok _ => .ok
      [("SessionSetupReq", .FAILED, .ISO_V20_COMMON_MSG, .MAINSTREAM),
       ("AuthorizationReq", .FAILED, .ISO_V20_COMMON_MSG, .MAINSTREAM),
       ("AuthorizationSetupReq", .FAILED, .ISO_V20_COMMON_MSG, .MAINSTREAM),
       ("CertificateInstallationReq", .FAILED, .ISO_V20_COMMON_MSG,
         .MAINSTREAM),
       ("ServiceDiscoveryReq", .FAILED, .ISO_V20_COMMON_MSG, .MAINSTREAM),
       ("ServiceDetailReq", .FAILED, .ISO_V20_COMMON_MSG, .MAINSTREAM),
       ("ServiceSelectionReq", .FAILED, .ISO_V20_COMMON_MSG, .MAINSTREAM),
       ("ACChargeParameterDiscoveryReq", .FAILED, .ISO_V20_AC,
         .AC_MAINSTREAM),
       ("DCChargeParameterDiscoveryReq", .FAILED, .ISO_V20_DC,
         .DC_MAINSTREAM),
       ("ScheduleExchangeReq", .FAILED, .ISO_V20_COMMON_MSG, .MAINSTREAM),
       ("PowerDeliveryReq", .FAILED, .ISO_V20_COMMON_MSG, .MAINSTREAM),
       ("ACChargeLoopReq", .FAILED, .ISO_V20_AC, .AC_MAINSTREAM),
       ("MeteringConfirmationReq", .FAILED, .ISO_V20_COMMON_MSG,
         .MAINSTREAM),
       ("SessionStopReq", .FAILED, .ISO_V20_COMMON_MSG, .MAINSTREAM)]

end FailedResponses

/-- The response code carried by a queued payload (the constructed body's
`response_code`, or the overriding code of a registry failed response). -/
def Payload.response_code : Payload → ResponseCode
  | .body (.sessionSetupRes c _ _) => c
  | .body (.serviceDiscoveryRes c _ _ _) => c
  | .body (.paymentServiceSelectionRes c) => c
  | .body (.chargeParameterDiscoveryRes c _ _ _ _) => c
  | .body (.powerDeliveryRes c _) => c
  | .body (.meteringReceiptRes c _ _) => c
  | .failedFor _ c => c

/-- The `service_list` element of a `ServiceDiscoveryRes` body (`none` for
any other body). -/
def ResBodyV2.service_list_of : ResBodyV2 → Option (List ServiceDetails)
  | .serviceDiscoveryRes _ _ _ sl => sl
  | _ => none

/-!  Concrete fixtures used by witnesses and counterexamples, patterned on
the repository's own test fixtures (`tests/secc/states/…`). -/

/-- A sample SECC configuration. -/
def testConfig : Config :=
  { supported_auth_options := [.EIM, .PNC]
    free_charging_service := false
    allow_cert_install_service := true
    free_cert_install_service := false }

/-- A sample EVSE controller snapshot (DC-extended charger offering one
schedule tuple with id 1). -/
def testController : EVSEController :=
  { evse_id := "UK123E1234"
    supported_energy_transfer_modes := [.DC_EXTENDED]
    ac_evse_status := ⟨0, .NONE, false⟩
    dc_evse_status := ⟨0, .NONE⟩
    ac_evse_charge_parameter := .params
    dc_evse_charge_parameter := .params
    is_authorised := true
    get_sa_schedule_list := fun _ _ => [⟨1, none⟩] }

/-- A sample session context mid-session (session id as in the repository's
tests, one offered schedule tuple with id 1). -/
def testCtx : SessionCtx :=
  { session_id := "F9F9EE8505F55838"
    evcc_id := ""
    is_tls := true
    config := testConfig
    evse_controller := testController
    selected_auth_option := none
    offered_auth_options := [.EIM_V2]
    offered_services := []
    offered_schedules := [⟨1, none⟩]
    selected_energy_mode := some .DC_EXTENDED
    selected_schedule := none
    charge_progress_started := false
    contract_cert_chain := some ⟨"contractLeafDER"⟩
    sent_meter_info := none }

/-!  ## Theorems -/

/-- C2: the spec states that `process_message` never raises and that this
holds in particular for CableCheck, PreCharge, CurrentDemand and
WeldingDetection; but those four states raise `NotImplementedError` on every
inbound message (and the repository's own tests drive CurrentDemand and
WeldingDetection expecting transitions).  This theorem evaluates the code at
every inbound message. -/
theorem stub_states_raise_not_implemented (m : V2ReqType) :
    CableCheck.process_message m =
      .error (.notImplementedError "CableCheck not yet implemented") ∧
    PreCharge.process_message m =
      .error (.notImplementedError "PreCharge not yet implemented") ∧
    CurrentDemand.process_message m =
      .error (.notImplementedError "CurrentDemand not yet implemented") ∧
    WeldingDetection.process_message m =
      .error (.notImplementedError "WeldingDetection not yet implemented") :=
  ⟨rfl, rfl, rfl, rfl⟩

/-- C3: calling `init_failed_responses_iso_v2` raises
`NameError: ResponseCodeV2` (the module never imports `ResponseCodeV2`,
`AuthOptionList`, `ServiceID`, `ServiceCategory`), so the ISO 15118-2
registry construction does not succeed; the DIN SPEC 70121 and ISO 15118-20
constructions do succeed, with every value carrying the `FAILED` code and
the ISO 15118-20 values being (code, namespace, payload type) triples. -/
theorem iso_v2_registry_construction_raises :
    FailedResponses.init_failed_responses_iso_v2 =
      .error (.nameError "ResponseCodeV2") ∧
    ("ResponseCodeV2" ∈ FailedResponses.iso_v2_referenced ∧
      "ResponseCodeV2" ∉ FailedResponses.imported_names) ∧
    (∃ l, FailedResponses.init_failed_responses_din_spec_70121 = .ok l ∧
      ∀ e ∈ l, e.2 = .FAILED) ∧
    (∃ l, FailedResponses.init_failed_responses_iso_v20 = .ok l ∧
      ∀ e ∈ l, e.2.1 = .FAILED) := by
  refine ⟨rfl, by decide, ⟨_, rfl, by decide⟩, ⟨_, rfl, by decide⟩⟩

/-- C9: on `PowerDeliveryReq(charge_progress=RENEGOTIATE)` with
`charge_progress_started = false` (and an offered tuple id), the source marks
the session aborted but, lacking a `return` after `stop_state_machine`, then
overwrites the queued `FAILED` response with an `OK` `PowerDeliveryRes` and
terminates — an OK response IS emitted, contradicting the claim; with
`charge_progress_started = true` the next state is ChargeParameterDiscovery
as claimed. -/
theorem powerDelivery_renegotiate_missing_return :
    ((PowerDelivery.process_power_delivery_req
        { testCtx with charge_progress_started := false }
        ⟨.RENEGOTIATE, 1, none⟩).2.message =
      .body (.powerDeliveryRes .OK testController.ac_evse_status)) ∧
    ((PowerDelivery.process_power_delivery_req
        { testCtx with charge_progress_started := false }
        ⟨.RENEGOTIATE, 1, none⟩).2.next = .terminate) ∧
    ((PowerDelivery.process_power_delivery_req
        { testCtx with charge_progress_started := false }
        ⟨.RENEGOTIATE, 1, none⟩).1.stop_reason_set = true) ∧
    ((PowerDelivery.process_power_delivery_req
        { testCtx with charge_progress_started := true }
        ⟨.RENEGOTIATE, 1, none⟩).2.next = .goto .chargeParameterDiscovery) :=
  ⟨rfl, rfl, rfl, rfl⟩

/-- C6: a `PowerDeliveryReq` whose `sa_schedule_tuple_id` matches none of the
offered schedules makes the PowerDelivery state abort with
`FAILED_TARIFF_SELECTION_INVALID`. -/
theorem powerDelivery_tariff_selection_invalid (ctx : SessionCtx)
    (req : PowerDelivery.PowerDeliveryReq)
    (h : (ctx.offered_schedules.map (·.sa_schedule_tuple_id)).contains
      req.sa_schedule_tuple_id = false) :
    (PowerDelivery.process_power_delivery_req ctx req).2 =
      ⟨.failedFor .powerDeliveryReq .FAILED_TARIFF_SELECTION_INVALID,
        .terminate, none⟩ := by
  have h1 : ¬ ((ctx.offered_schedules.map (·.sa_schedule_tuple_id)).contains
      req.sa_schedule_tuple_id = true) := fun c => by
    rw [h] at c
    exact Bool.noConfusion c
  unfold PowerDelivery.process_power_delivery_req
  rw [if_pos h1]
  rfl

/-- Witness for C6: the offered schedules hold only tuple id 1, the request
names tuple id 5. -/
theorem powerDelivery_tariff_selection_invalid_witness :
    (PowerDelivery.process_power_delivery_req testCtx ⟨.START, 5, none⟩).2 =
      ⟨.failedFor .powerDeliveryReq .FAILED_TARIFF_SELECTION_INVALID,
        .terminate, none⟩ :=
  powerDelivery_tariff_selection_invalid testCtx ⟨.START, 5, none⟩ (by decide)

/-- C5 as stated is false: a `PowerDeliveryReq(START)` without a charging
profile whose tuple id is ALSO not offered aborts with
`FAILED_TARIFF_SELECTION_INVALID`, not `FAILED_CHARGING_PROFILE_INVALID`
(the tariff check runs first). -/
theorem powerDelivery_profile_counterexample :
    ((PowerDelivery.process_power_delivery_req
        { testCtx with offered_schedules := [] } ⟨.START, 1, none⟩).2.message =
      .failedFor .powerDeliveryReq .FAILED_TARIFF_SELECTION_INVALID) ∧
    ResponseCode.FAILED_TARIFF_SELECTION_INVALID ≠
      ResponseCode.FAILED_CHARGING_PROFILE_INVALID :=
  ⟨rfl, by decide⟩

/-- C5 (amended): a `PowerDeliveryReq` with `charge_progress = START`, no
charging profile, and an OFFERED `sa_schedule_tuple_id` makes the
PowerDelivery state abort with `FAILED_CHARGING_PROFILE_INVALID` and not
transition to ChargingStatus. -/
theorem powerDelivery_start_without_profile (ctx : SessionCtx)
    (req : PowerDelivery.PowerDeliveryReq)
    (h : (ctx.offered_schedules.map (·.sa_schedule_tuple_id)).contains
      req.sa_schedule_tuple_id = true)
    (hs : req.charge_progress = .START) (hp : req.charging_profile = none) :
    (PowerDelivery.process_power_delivery_req ctx req).2 =
      ⟨.failedFor .powerDeliveryReq .FAILED_CHARGING_PROFILE_INVALID,
        .terminate, none⟩ ∧
    (PowerDelivery.process_power_delivery_req ctx req).2.next ≠
      .goto .chargingStatus := by
  have h1 : ¬¬((ctx.offered_schedules.map (·.sa_schedule_tuple_id)).contains
      req.sa_schedule_tuple_id = true) := fun c => c h
  unfold PowerDelivery.process_power_delivery_req
  rw [if_neg h1, if_pos ⟨hs, hp⟩]
  exact ⟨rfl, by simp [stop_state_machine]⟩

/-- Witness for C5 (amended): tuple id 1 is offered, `START`, no profile. -/
theorem powerDelivery_start_without_profile_witness :
    (PowerDelivery.process_power_delivery_req testCtx ⟨.START, 1, none⟩).2 =
      ⟨.failedFor .powerDeliveryReq .FAILED_CHARGING_PROFILE_INVALID,
        .terminate, none⟩ ∧
    (PowerDelivery.process_power_delivery_req testCtx ⟨.START, 1, none⟩).2.next
      ≠ .goto .chargingStatus :=
  powerDelivery_start_without_profile testCtx ⟨.START, 1, none⟩ (by decide)
    rfl rfl

/-- C1 as stated is false at one input: when the stored session id happens to
be the 8-byte all-zero id, a `SessionSetupReq` carrying the 8-byte all-zero
header id is answered with `OK_OLD_SESSION_JOINED` and the stored id is kept,
because the source compares the header against `bytes(1).hex()` (`"00"`, one
zero byte) rather than the 8-byte zero id, and the match against the stored
id then wins. -/
theorem sessionSetup_allzero_resume_counterexample :
    ((SessionSetup.process_message
        { testCtx with session_id := all_zero_session_id_hex }
        "A1B2C3D4E5F60718" 0 ⟨all_zero_session_id_hex⟩
        ⟨"AA:BB:CC:DD:EE:FF"⟩).2.message =
      .body (.sessionSetupRes .OK_OLD_SESSION_JOINED "UK123E1234" 0)) ∧
    ((SessionSetup.process_message
        { testCtx with session_id := all_zero_session_id_hex }
        "A1B2C3D4E5F60718" 0 ⟨all_zero_session_id_hex⟩
        ⟨"AA:BB:CC:DD:EE:FF"⟩).1.session_id = all_zero_session_id_hex) ∧
    ResponseCode.OK_OLD_SESSION_JOINED ≠
      ResponseCode.OK_NEW_SESSION_ESTABLISHED ∧
    all_zero_session_id_hex ≠ "A1B2C3D4E5F60718" :=
  ⟨rfl, rfl, by decide, by decide⟩

/-- C1 (amended): the three `SessionSetup` session-id cases hold provided the
stored session id is not itself the all-zero id: an all-zero header id yields
`OK_NEW_SESSION_ESTABLISHED` with the fresh id stored; a header id matching
the stored non-zero id yields `OK_OLD_SESSION_JOINED` with the stored id
kept; any other non-matching id yields `OK_NEW_SESSION_ESTABLISHED` with the
fresh id stored. -/
theorem sessionSetup_session_id_cases (ctx : SessionCtx)
    (fresh_session_id : String) (now : Nat) (header : MessageHeaderV2)
    (req : SessionSetup.SessionSetupReq) :
    (header.session_id = all_zero_session_id_hex →
      ctx.session_id ≠ all_zero_session_id_hex →
      (SessionSetup.process_message ctx fresh_session_id now header
          req).2.message =
        .body (.sessionSetupRes .OK_NEW_SESSION_ESTABLISHED
          ctx.evse_controller.evse_id now) ∧
      (SessionSetup.process_message ctx fresh_session_id now header
          req).1.session_id = fresh_session_id) ∧
    (header.session_id = ctx.session_id →
      ctx.session_id ≠ all_zero_session_id_hex →
      ctx.session_id ≠ one_zero_byte_hex →
      (SessionSetup.process_message ctx fresh_session_id now header
          req).2.message =
        .body (.sessionSetupRes .OK_OLD_SESSION_JOINED
          ctx.evse_controller.evse_id now) ∧
      (SessionSetup.process_message ctx fresh_session_id now header
          req).1.session_id = ctx.session_id) ∧
    (header.session_id ≠ all_zero_session_id_hex →
      header.session_id ≠ ctx.session_id →
      (SessionSetup.process_message ctx fresh_session_id now header
          req).2.message =
        .body (.sessionSetupRes .OK_NEW_SESSION_ESTABLISHED
          ctx.evse_controller.evse_id now) ∧
      (SessionSetup.process_message ctx fresh_session_id now header
          req).1.session_id = fresh_session_id) := by
  refine ⟨fun h1 h2 => ?_, fun h1 h2 h3 => ?_, fun h1 h2 => ?_⟩
  · unfold SessionSetup.process_message create_next_message
    dsimp only
    rw [h1]
    rw [if_neg (by decide : ¬ (all_zero_session_id_hex = one_zero_byte_hex))]
    rw [if_neg (fun c => h2 c.symm)]
    exact ⟨rfl, rfl⟩
  · unfold SessionSetup.process_message create_next_message
    dsimp only
    rw [h1]
    rw [if_neg h3, if_pos rfl]
    exact ⟨rfl, rfl⟩
  · unfold SessionSetup.process_message create_next_message
    dsimp only
    by_cases hz : header.session_id = one_zero_byte_hex
    · rw [if_pos hz]
      exact ⟨rfl, rfl⟩
    · rw [if_neg hz, if_neg h2]
      exact ⟨rfl, rfl⟩

/-- Witness for C1 (amended): resuming with the stored non-zero id
`F9F9EE8505F55838` yields `OK_OLD_SESSION_JOINED` and keeps the stored id. -/
theorem sessionSetup_session_id_cases_witness :
    ((SessionSetup.process_message testCtx "A1B2C3D4E5F60718" 7
        ⟨"F9F9EE8505F55838"⟩ ⟨"AA:BB:CC:DD:EE:FF"⟩).2.message =
      .body (.sessionSetupRes .OK_OLD_SESSION_JOINED "UK123E1234" 7)) ∧
    ((SessionSetup.process_message testCtx "A1B2C3D4E5F60718" 7
        ⟨"F9F9EE8505F55838"⟩ ⟨"AA:BB:CC:DD:EE:FF"⟩).1.session_id =
      "F9F9EE8505F55838") :=
  (sessionSetup_session_id_cases testCtx "A1B2C3D4E5F60718" 7
    ⟨"F9F9EE8505F55838"⟩ ⟨"AA:BB:CC:DD:EE:FF"⟩).2.1 rfl (by decide) (by decide)

/-- C4: a `ChargeParameterDiscoveryReq` asking for an energy-transfer mode
the EVSE controller does not support makes the state abort with
`FAILED_WRONG_ENERGY_TRANSFER_MODE` and leaves `selected_energy_mode`
untouched; a supported mode is recorded as `selected_energy_mode`. -/
theorem chargeParameterDiscovery_energy_mode (ctx : SessionCtx)
    (mo_sub_ca2_key_readable : Bool)
    (req : ChargeParameterDiscovery.ChargeParameterDiscoveryReq) :
    (ctx.evse_controller.supported_energy_transfer_modes.contains
        req.requested_energy_mode = false →
      (ChargeParameterDiscovery.process_charge_parameter_discovery_req ctx
          mo_sub_ca2_key_readable req).2 =
        ⟨.failedFor .chargeParameterDiscoveryReq
          .FAILED_WRONG_ENERGY_TRANSFER_MODE, .terminate, none⟩ ∧
      (ChargeParameterDiscovery.process_charge_parameter_discovery_req ctx
          mo_sub_ca2_key_readable req).1.selected_energy_mode =
        ctx.selected_energy_mode) ∧
    (ctx.evse_controller.supported_energy_transfer_modes.contains
        req.requested_energy_mode = true →
      (ChargeParameterDiscovery.process_charge_parameter_discovery_req ctx
          mo_sub_ca2_key_readable req).1.selected_energy_mode =
        some req.requested_energy_mode) := by
  refine ⟨fun h => ?_, fun h => ?_⟩
  · have h1 : ¬ (ctx.evse_controller.supported_energy_transfer_modes.contains
        req.requested_energy_mode = true) := fun c => by
      rw [h] at c
      exact Bool.noConfusion c
    unfold ChargeParameterDiscovery.process_charge_parameter_discovery_req
    rw [if_pos h1]
    exact ⟨rfl, rfl⟩
  · have h1 : ¬¬(ctx.evse_controller.supported_energy_transfer_modes.contains
        req.requested_energy_mode = true) := fun c => c h
    obtain ⟨mode, max_entries, evp⟩ := req
    unfold ChargeParameterDiscovery.process_charge_parameter_discovery_req
    rw [if_neg h1]
    cases evp <;>
      · dsimp only [create_next_message]
        split <;> rfl

/-- Witness for C4: the controller supports only `DC_EXTENDED`; requesting
`AC_single_phase_core` aborts without touching the selected mode, requesting
`DC_EXTENDED` records it. -/
theorem chargeParameterDiscovery_energy_mode_witness :
    ((ChargeParameterDiscovery.process_charge_parameter_discovery_req testCtx
        true ⟨.AC_SINGLE_PHASE_CORE, none, .dc ⟨none⟩⟩).2 =
      ⟨.failedFor .chargeParameterDiscoveryReq
        .FAILED_WRONG_ENERGY_TRANSFER_MODE, .terminate, none⟩ ∧
      (ChargeParameterDiscovery.process_charge_parameter_discovery_req testCtx
        true ⟨.AC_SINGLE_PHASE_CORE, none, .dc ⟨none⟩⟩).1.selected_energy_mode
        = some .DC_EXTENDED) ∧
    ((ChargeParameterDiscovery.process_charge_parameter_discovery_req testCtx
        true ⟨.DC_EXTENDED, none, .dc ⟨none⟩⟩).1.selected_energy_mode =
      some .DC_EXTENDED) :=
  ⟨(chargeParameterDiscovery_energy_mode testCtx true
      ⟨.AC_SINGLE_PHASE_CORE, none, .dc ⟨none⟩⟩).1 rfl,
    (chargeParameterDiscovery_energy_mode testCtx true
      ⟨.DC_EXTENDED, none, .dc ⟨none⟩⟩).2 rfl⟩

/-- C7 as stated is false at one input: when the meter reading last sent and
the reading echoed by the EVCC are both 0 — equal — the state still aborts
with `FAILED_METERING_SIGNATURE_NOT_VALID`, because the source first tests
Python truthiness of the request's reading (`not …meter_reading`) and `0` is
falsy. -/
theorem meteringReceipt_zero_reading_counterexample :
    ((MeteringReceipt.process_metering_receipt_req
        { testCtx with sent_meter_info := some ⟨"METER1", some 0⟩ } true
        ⟨some "id1", ⟨"METER1", some 0⟩⟩).2 =
      ⟨.failedFor .meteringReceiptReq .FAILED_METERING_SIGNATURE_NOT_VALID,
        .terminate, none⟩) ∧
    ((⟨some "id1", ⟨"METER1", some 0⟩⟩ :
        MeteringReceipt.MeteringReceiptReq).meter_info.meter_reading =
      (⟨"METER1", some 0⟩ : MeterInfo).meter_reading) :=
  ⟨rfl, rfl⟩

/-- C7 (amended): for a `MeteringReceiptReq` with verifiable signature, when
a previously sent meter info is stored and both its reading and the request's
reading are present and non-zero: a differing reading aborts with
`FAILED_METERING_SIGNATURE_NOT_VALID`, an equal reading is answered `OK`
(remaining in the state); a missing or zero request reading always aborts. -/
theorem meteringReceipt_meter_reading_check (ctx : SessionCtx)
    (smi : MeterInfo) (req : MeteringReceipt.MeteringReceiptReq)
    (hc : ctx.contract_cert_chain ≠ none)
    (hsent : ctx.sent_meter_info = some smi)
    (h1 : optNatTruthy smi.meter_reading = true)
    (h2 : optNatTruthy req.meter_info.meter_reading = true) :
    (req.meter_info.meter_reading ≠ smi.meter_reading →
      (MeteringReceipt.process_metering_receipt_req ctx true req).2 =
        ⟨.failedFor .meteringReceiptReq .FAILED_METERING_SIGNATURE_NOT_VALID,
          .terminate, none⟩) ∧
    (req.meter_info.meter_reading = smi.meter_reading →
      (MeteringReceipt.process_metering_receipt_req ctx true
          req).2.message.response_code = .OK ∧
      (MeteringReceipt.process_metering_receipt_req ctx true req).2.next =
        .stay) := by
  constructor
  · intro hne
    have hb : (req.meter_info.meter_reading != smi.meter_reading) = true := by
      simp [bne_iff_ne, hne]
    unfold MeteringReceipt.process_metering_receipt_req
    dsimp only
    rw [if_neg hc, if_neg (not_not_intro rfl), hsent]
    dsimp only
    rw [h1, h2, hb]
    rfl
  · intro heq
    have hb : (req.meter_info.meter_reading != smi.meter_reading) = false := by
      simp [heq]
    unfold MeteringReceipt.process_metering_receipt_req
    dsimp only
    rw [if_neg hc, if_neg (not_not_intro rfl), hsent]
    dsimp only
    rw [h1, h2, hb]
    dsimp only [create_next_message]
    constructor
    · split
      · rename_i hsome
        simp at hsome
      · split <;> rfl
    · split
      · rename_i hsome
        simp at hsome
      · rfl

/-- Witness for C7 (amended): last sent reading 42; an echoed reading of 7
aborts with `FAILED_METERING_SIGNATURE_NOT_VALID`, an echoed reading of 42 is
answered `OK`. -/
theorem meteringReceipt_meter_reading_check_witness :
    ((MeteringReceipt.process_metering_receipt_req
        { testCtx with sent_meter_info := some ⟨"METER1", some 42⟩ } true
        ⟨some "id1", ⟨"METER1", some 7⟩⟩).2 =
      ⟨.failedFor .meteringReceiptReq .FAILED_METERING_SIGNATURE_NOT_VALID,
        .terminate, none⟩) ∧
    ((MeteringReceipt.process_metering_receipt_req
        { testCtx with sent_meter_info := some ⟨"METER1", some 42⟩ } true
        ⟨some "id1", ⟨"METER1", some 42⟩⟩).2.message.response_code = .OK ∧
      (MeteringReceipt.process_metering_receipt_req
        { testCtx with sent_meter_info := some ⟨"METER1", some 42⟩ } true
        ⟨some "id1", ⟨"METER1", some 42⟩⟩).2.next = .stay) :=
  ⟨(meteringReceipt_meter_reading_check
      { testCtx with sent_meter_info := some ⟨"METER1", some 42⟩ }
      ⟨"METER1", some 42⟩ ⟨some "id1", ⟨"METER1", some 7⟩⟩
      (by decide) rfl rfl rfl).1 (by decide),
    (meteringReceipt_meter_reading_check
      { testCtx with sent_meter_info := some ⟨"METER1", some 42⟩ }
      ⟨"METER1", some 42⟩ ⟨some "id1", ⟨"METER1", some 42⟩⟩
      (by decide) rfl rfl rfl).2 rfl⟩

/-- C8 as stated is false at one input: a selection that omits the Charge
service AND names an unoffered service is answered with
`FAILED_SERVICE_SELECTION_INVALID`, not `FAILED_NO_CHARGE_SERVICE_SELECTED` —
the source checks offered-ness inside the loop, before the charge-selected
test. -/
theorem paymentServiceSelection_counterexample :
    ((PaymentServiceSelection.process_payment_service_selection_req testCtx
        ⟨.ExternalPayment, [⟨5, none⟩]⟩).2 =
      ⟨.failedFor .paymentServiceSelectionReq
        .FAILED_SERVICE_SELECTION_INVALID, .terminate, none⟩) ∧
    (∀ s ∈ [(⟨5, none⟩ : PaymentServiceSelection.SelectedService)],
      s.service_id ≠ ServiceID.CHARGING) ∧
    ResponseCode.FAILED_SERVICE_SELECTION_INVALID ≠
      ResponseCode.FAILED_NO_CHARGE_SERVICE_SELECTED :=
  ⟨rfl, by decide, by decide⟩

/-- C8 (amended): the `PaymentServiceSelection` checks fire in the source's
order — first any selected non-charge service that was not offered aborts
with `FAILED_SERVICE_SELECTION_INVALID`; then a selection without the Charge
service aborts with `FAILED_NO_CHARGE_SERVICE_SELECTED`; then an auth option
that was not offered aborts with `FAILED_PAYMENT_SELECTION_INVALID`;
otherwise the response is `OK` and `selected_auth_option` is set to the
`AuthEnum` member with the selected option's value. -/
theorem paymentServiceSelection_checks (ctx : SessionCtx)
    (req : PaymentServiceSelection.PaymentServiceSelectionReq) :
    (∀ bad_id, PaymentServiceSelection.check_selected_services
        (ctx.offered_services.map (·.service_id)) req.selected_service_list
        false = .error bad_id →
      (PaymentServiceSelection.process_payment_service_selection_req ctx
          req).2 =
        ⟨.failedFor .paymentServiceSelectionReq
          .FAILED_SERVICE_SELECTION_INVALID, .terminate, none⟩) ∧
    (PaymentServiceSelection.check_selected_services
        (ctx.offered_services.map (·.service_id)) req.selected_service_list
        false = .ok false →
      (PaymentServiceSelection.process_payment_service_selection_req ctx
          req).2 =
        ⟨.failedFor .paymentServiceSelectionReq
          .FAILED_NO_CHARGE_SERVICE_SELECTED, .terminate, none⟩) ∧
    (PaymentServiceSelection.check_selected_services
        (ctx.offered_services.map (·.service_id)) req.selected_service_list
        false = .ok true →
      ((ctx.offered_auth_options.map AuthEnum.value).contains
          req.selected_auth_option.value = false →
        (PaymentServiceSelection.process_payment_service_selection_req ctx
            req).2 =
          ⟨.failedFor .paymentServiceSelectionReq
            .FAILED_PAYMENT_SELECTION_INVALID, .terminate, none⟩) ∧
      ((ctx.offered_auth_options.map AuthEnum.value).contains
          req.selected_auth_option.value = true →
        (PaymentServiceSelection.process_payment_service_selection_req ctx
            req).2 =
          ⟨.body (.paymentServiceSelectionRes .OK), .stay, none⟩ ∧
        (PaymentServiceSelection.process_payment_service_selection_req ctx
            req).1.selected_auth_option =
          AuthEnum.fromValue req.selected_auth_option.value)) := by
  refine ⟨fun bad_id h => ?_, fun h => ?_,
    fun h => ⟨fun ha => ?_, fun ha => ?_⟩⟩
  · unfold PaymentServiceSelection.process_payment_service_selection_req
    rw [h]
    rfl
  · unfold PaymentServiceSelection.process_payment_service_selection_req
    rw [h]
    dsimp only
    rw [if_pos (fun c => Bool.noConfusion c)]
    rfl
  · unfold PaymentServiceSelection.process_payment_service_selection_req
    rw [h]
    dsimp only
    rw [if_neg (not_not_intro rfl)]
    rw [if_pos (fun c => by rw [ha] at c; exact Bool.noConfusion c)]
    rfl
  · unfold PaymentServiceSelection.process_payment_service_selection_req
    rw [h]
    dsimp only
    rw [if_neg (not_not_intro rfl)]
    rw [if_neg (fun c => c ha)]
    exact ⟨rfl, rfl⟩

/-- Witness for C8 (amended): with no offered value-added services and
offered auth option `EIM_V2`, selecting the unoffered service 5 aborts with
`FAILED_SERVICE_SELECTION_INVALID`, and selecting the Charge service with
`ExternalPayment` is answered `OK`, storing `EIM_V2`. -/
theorem paymentServiceSelection_checks_witness :
    ((PaymentServiceSelection.process_payment_service_selection_req testCtx
        ⟨.ExternalPayment, [⟨5, none⟩]⟩).2 =
      ⟨.failedFor .paymentServiceSelectionReq
        .FAILED_SERVICE_SELECTION_INVALID, .terminate, none⟩) ∧
    ((PaymentServiceSelection.process_payment_service_selection_req testCtx
        ⟨.ExternalPayment, [⟨1, none⟩]⟩).2 =
      ⟨.body (.paymentServiceSelectionRes .OK), .stay, none⟩ ∧
      (PaymentServiceSelection.process_payment_service_selection_req testCtx
        ⟨.ExternalPayment, [⟨1, none⟩]⟩).1.selected_auth_option =
        AuthEnum.fromValue "ExternalPayment") :=
  ⟨(paymentServiceSelection_checks testCtx
      ⟨.ExternalPayment, [⟨5, none⟩]⟩).1 5 rfl,
    ((paymentServiceSelection_checks testCtx
      ⟨.ExternalPayment, [⟨1, none⟩]⟩).2.2 rfl).2 rfl⟩

/-- C10: the `service_list` element of a `ServiceDiscoveryRes` built by
`get_services` is absent (`None`) exactly when no value-added service is
offered, and whenever it is present it is a non-empty list (never an empty
one). -/
theorem serviceDiscovery_service_list_iff (ctx : SessionCtx)
    (category_filter : Option ServiceCategory) :
    ((ServiceDiscovery.get_services ctx category_filter).2.service_list_of =
        none ↔
      (ServiceDiscovery.get_services ctx
          category_filter).1.offered_services = []) ∧
    (∀ l, (ServiceDiscovery.get_services ctx
        category_filter).2.service_list_of = some l → l ≠ []) := by
  unfold ServiceDiscovery.get_services
  dsimp only [ResBodyV2.service_list_of]
  constructor
  · split <;> simp
  · intro l hl
    revert hl
    split <;> simp
    rintro rfl
    simp

/-- Witness for C10: without TLS no value-added service is offered and the
element is absent; with TLS and the certificate-installation service allowed
the present list is non-empty. -/
theorem serviceDiscovery_service_list_iff_witness :
    ((ServiceDiscovery.get_services { testCtx with is_tls := false }
        none).2.service_list_of = none ↔
      (ServiceDiscovery.get_services { testCtx with is_tls := false }
        none).1.offered_services = []) ∧
    ([(⟨2, "Certificate", .CERTIFICATE, false⟩ : ServiceDetails)] ≠
      ([] : List ServiceDetails)) :=
  ⟨(serviceDiscovery_service_list_iff { testCtx with is_tls := false }
      none).1,
    (serviceDiscovery_service_list_iff testCtx none).2
      [⟨2, "Certificate", .CERTIFICATE, false⟩] rfl⟩

end Iso15118Secc
